import Mathlib

/-!
Shallow embedding of `parse.py`, the documentation-to-API extractor of the
kanboard-documentation repository: a token-stream state machine that turns
markdown API reference pages into python stub declarations and an OpenRPC
method list.

Modelling conventions:
* Python strings are Lean `String` (a wrapper around `List Char`); the string
  operations `in`, `startswith`, `endswith`, `casefold`/`lower`, `strip` are
  embedded as executable functions on the underlying character lists.
* Python dicts used as JSON values are association lists inside an inductive
  `Json` type; insertion order is preserved, as in CPython.
* Exceptions (`RuntimeError`, and the implicit `KeyError` of a dict lookup and
  `AttributeError` of an unassigned instance field) are modelled with
  `Except PyError`.  A raised exception aborts the run, so state mutated
  before the raise is irrelevant and the model simply returns the error.
* Output printed to stdout (the side-channel diagnostics) is accumulated in a
  `diags` field of the machine state / returned alongside results.
* The external collaborators are inputs: the markdown tokenizer's output is
  the `Token` list fed to the machine, and the `caseswitcher.to_snake` casing
  function is a `String → String` parameter.
-/

namespace Parse

/-- Character-list prefix test, used to embed python `str.startswith`. -/
def listIsPrefixOf : List Char → List Char → Bool
  | [], _ => true
  | _ :: _, [] => false
  | a :: as, b :: bs => if a = b then listIsPrefixOf as bs else false

/-- Character-list substring test, used to embed the python `in` operator. -/
def listContainsSub (pat : List Char) : List Char → Bool
  | [] => listIsPrefixOf pat []
  | c :: cs => listIsPrefixOf pat (c :: cs) || listContainsSub pat cs

/-- Python `s.startswith(pre)`. -/
def strStartsWith (s pre : String) : Bool :=
  listIsPrefixOf pre.data s.data

/-- Python `s.endswith(suf)`. -/
def strEndsWith (s suf : String) : Bool :=
  listIsPrefixOf suf.data.reverse s.data.reverse

/-- Python `pat in s` (substring containment). -/
def strContains (s pat : String) : Bool :=
  listContainsSub pat.data s.data

/-- Python `s.casefold()` / `s.lower()`; the documentation text is ASCII, for
which both agree with character-wise lowercasing. -/
def strToLower (s : String) : String :=
  ⟨s.data.map Char.toLower⟩

/-- Python `s.strip()`: remove leading and trailing whitespace. -/
def strStrip (s : String) : String :=
  ⟨((s.data.dropWhile Char.isWhitespace).reverse.dropWhile Char.isWhitespace).reverse⟩

/-- Python truthiness of an `Optional[str]`: `None` and `""` are falsy. -/
def truthy : Option String → Bool
  | none => false
  | some s => s ≠ ""

/-- JSON values, as built by the script for the OpenRPC document.  Objects
keep their fields in insertion order like python dicts. -/
inductive Json where
  | null : Json
  | bool (b : Bool) : Json
  | str (s : String) : Json
  | arr (elems : List Json) : Json
  | obj (fields : List (String × Json)) : Json

/-- Lookup of a key in a JSON object (python `d[k]` on the model's assoc
lists), `none` when absent or not an object. -/
def Json.getKey : Json → String → Option Json
  | .obj fs, k => (fs.find? (fun kv => kv.1 = k)).map (·.2)
  | _, _ => none

/-- Whether a JSON object carries a key. -/
def Json.hasKey : Json → String → Bool
  | .obj fs, k => fs.any (fun kv => kv.1 = k)
  | _, _ => false

/-- Python dict assignment `d[k] = v`: overwrite in place when the key
exists, append at the end otherwise.  Non-objects are left unchanged (the
script only ever assigns into dicts). -/
def Json.setKey : Json → String → Json → Json
  | .obj fs, k, v =>
      if fs.any (fun kv => kv.1 = k) then
        .obj (fs.map (fun kv => if kv.1 = k then (k, v) else kv))
      else
        .obj (fs ++ [(k, v)])
  | j, _, _ => j

/-- A child span of an inline markdown token: only its `type` and `content`
are ever read by the extractor. -/
structure Span where
  type : String
  content : String
deriving DecidableEq

/-- A markdown-it token as consumed by the extractor: a type tag, raw
content, and the child spans (empty for non-inline tokens, embedding the
falsy `None`/`[]` of the python attribute). -/
structure Token where
  type : String
  content : String
  children : List Span
deriving DecidableEq

/-- The stub-file preamble `_FILE_START` of `parse.py`. -/
def _FILE_START : String :=
  "\n# Copyright (c) 2014-2023 Frédéric Guillot\n# Copyright 2025, The Khronos Group Inc.\n#\n# SPDX-License-Identifier: MIT\n#\n# Permission is hereby granted, free of charge, to any person obtaining a copy\n# of this software and associated documentation files (the \"Software\"), to deal\n# in the Software without restriction, including without limitation the rights\n# to use, copy, modify, merge, publish, distribute, sublicense, and/or sell\n# copies of the Software, and to permit persons to whom the Software is\n# furnished to do so, subject to the following conditions:\n#\n# The above copyright notice and this permission notice shall be included in\n# all copies or substantial portions of the Software.\n#\n# THE SOFTWARE IS PROVIDED \"AS IS\", WITHOUT WARRANTY OF ANY KIND, EXPRESS OR\n# IMPLIED, INCLUDING BUT NOT LIMITED TO THE WARRANTIES OF MERCHANTABILITY,\n# FITNESS FOR A PARTICULAR PURPOSE AND NONINFRINGEMENT. IN NO EVENT SHALL THE\n# AUTHORS OR COPYRIGHT HOLDERS BE LIABLE FOR ANY CLAIM, DAMAGES OR OTHER\n# LIABILITY, WHETHER IN AN ACTION OF CONTRACT, TORT OR OTHERWISE, ARISING FROM,\n# OUT OF OR IN CONNECTION WITH THE SOFTWARE OR THE USE OR OTHER DEALINGS IN\n# THE SOFTWARE.\n\nimport asyncio\nfrom typing import Optional\n\nDEFAULT_AUTH_HEADER = \"Authorization\"\n\nclass Client:\n    def __init__(\n        self,\n        url: str,\n        username: str,\n        password: str,\n        auth_header: str = DEFAULT_AUTH_HEADER,\n        cafile: Optional[str] = None,\n        insecure: bool = False,\n        ignore_hostname_verification: bool = False,\n        user_agent: str = \"Kanboard Python API Client\",\n        loop: Optional[asyncio.AbstractEventLoop] = None,\n    ) -> None: ...\n\n"

/-- The `_SCHEMAS` dict of `parse.py`: JSON schemas for python types.  The
`"Any"` entry is commented out in the source, so looking it up fails —
embedded as `none` (a python `KeyError`). -/
def _SCHEMAS : String → Option Json
  | "list[str]" => some (.obj [("type", .str "array"),
      ("additionalItems", .obj [("type", .str "string")])])
  | "str" => some (.obj [("type", .str "string")])
  | "int" => some (.obj [("type", .str "integer")])
  | "bool" => some (.obj [("type", .str "boolean")])
  | "dict" => some (.obj [("type", .str "object")])
  | "list" => some (.obj [("type", .str "array"), ("additionalItems", .bool true)])
  | _ => none

/-- The `State` enum of `parse.py`. -/
inductive State where
  | NORMAL
  | IN_HEADING
  | EXPECT_PARAM_LIST
  | IN_PARAM_LIST
  | EXPECT_TITLE
  | IN_RESULT_SUCCESS
  | IN_RESULT_FAILURE
  | IN_PURPOSE
deriving DecidableEq

/-- Python exceptions that `parse.py` can raise while handling tokens. -/
inductive PyError where
  | runtimeError (msg : String) : PyError
  | keyError (key : String) : PyError
  | attributeError (name : String) : PyError
deriving DecidableEq

/-- The `Param` dataclass. -/
structure Param where
  param_type : String
  param_name : String
  optional : Bool
  summary : String
deriving DecidableEq

/-- `Param.to_python`: render one parameter of the stub declaration. -/
def Param.to_python (p : Param) : String :=
  let default := if p.optional then " = None" else ""
  let param_type := if p.optional then "Optional[" ++ p.param_type ++ "]" else p.param_type
  p.param_name ++ ": " ++ param_type ++ default

/-- `Param.to_jsonrpc`: render one parameter's OpenRPC record.  The schema is
looked up in `_SCHEMAS` by the parameter's python type; a missing entry is a
python `KeyError`. -/
def Param.to_jsonrpc (p : Param) : Except PyError Json :=
  match _SCHEMAS p.param_type with
  | none => .error (.keyError p.param_type)
  | some schema =>
      let base : List (String × Json) :=
        [("name", .str p.param_name), ("summary", .str p.summary), ("schema", schema)]
      if p.optional then .ok (.obj base)
      else .ok (.obj (base ++ [("required", .bool true)]))

/-- `_combine_schemas`: tag the success/failure schemas with their
discriminator descriptions and wrap them in a `oneOf`. -/
def _combine_schemas (success_schema failure_schema : Json) : Json :=
  .obj [("oneOf", .arr
    [success_schema.setKey "description" (.str "on success"),
     failure_schema.setKey "description" (.str "on failure")])]

/-- `_guess_return_schema`: heuristic mapping a free-text result description
to a JSON schema. -/
def _guess_return_schema (desc : String) : Json :=
  if desc = "true" then .obj [("enum", .arr [.bool true])]
  else if desc = "false" then .obj [("enum", .arr [.bool false])]
  else if desc = "null" then .obj [("enum", .arr [.null])]
  else if strEndsWith desc "_id" then .obj [("title", .str desc), ("type", .str "integer")]
  else
    let folded := strToLower desc
    if desc = "[]" ∨ folded = "empty array" then
      .obj [("type", .str "array"), ("additionalItems", .bool false)]
    else if folded = "empty string" then .obj [("enum", .arr [.str ""])]
    else if strStartsWith folded "list of" then
      .obj [("title", .str desc), ("type", .str "array"), ("additionalItems", .bool true)]
    else if strStartsWith folded "dict" then
      .obj [("title", .str desc), ("type", .str "object"), ("additionalProperties", .bool true)]
    else if strContains folded "string" then
      .obj [("title", .str desc), ("type", .str "string")]
    else
      .obj [("title", .str desc), ("$comment", .str "Could not guess json schema for this type")]

/-- `_try_extract_prefixed`: when the token's content begins with the label,
return the concatenation of its child text spans that do not themselves start
with the label; `None` otherwise (in particular when there are no children). -/
def _try_extract_prefixed (t : Token) (pre : String) : Option String :=
  if t.children = [] then none
  else if strStartsWith t.content pre then
    some (String.join ((t.children.filter
      (fun c => c.type = "text" && !(strStartsWith c.content pre))).map Span.content))
  else none

/-- The `ExtractorStateMachine` instance fields.  `orig_method` is only
annotated, never assigned, in `__init__`, so it starts out unreadable:
embedded as `Option String` with `none` meaning "reading it raises
`AttributeError`".  The constant metadata of the `openrpc` dict is kept
separately (see `openrpcDoc`); the machine carries its mutable `methods`
list.  `diags` accumulates the stdout diagnostics. -/
structure ExtractorStateMachine where
  state : State
  lines : List String
  method : Option String
  params : List Param
  indent : String
  url : String
  orig_method : Option String
  methods : List Json
  result : String
  on_success : String
  on_failure : String
  purpose : String
  diags : List String

/-- The machine as built by `ExtractorStateMachine.__init__`. -/
def initMachine : ExtractorStateMachine :=
  { state := State.NORMAL
    lines := [_FILE_START]
    method := none
    params := []
    indent := "    "
    url := ""
    orig_method := none
    methods := []
    result := ""
    on_success := ""
    on_failure := ""
    purpose := ""
    diags := [] }

/-- The constant wrapper of the `openrpc` dict around the methods list. -/
def openrpcDoc (methods : List Json) : Json :=
  .obj [("openrpc", .str "1.2.1"),
        ("info", .obj [("version", .str "1.2"), ("title", .str "Kanboard")]),
        ("methods", .arr methods)]

/-- The non-empty text spans of a parameter's children, as collected at the
top of `_handle_param_children`. -/
def textNodes (children : List Span) : List String :=
  (children.filter (fun c => c.type = "text" && c.content ≠ "")).map Span.content

/-- The diagnostic line printed by `_handle_param_children` when no type
keyword matches. -/
def couldNotFigureOut (type_info parent_content : String) : String :=
  "Could not figure out param type: \x27" ++ type_info ++ "\x27 from parent node \x27"
    ++ parent_content ++ "\x27"

/-- `_handle_param_children`: derive at most one `Param` from the text spans
of a parameter bullet, together with the stdout diagnostics emitted.  The
first non-empty text span is the name (the literal name `"none"` yields no
parameter); the remaining spans joined form the type description, scanned for
keyword substrings in the source's priority order. -/
def _handle_param_children (parent_content : String) (children : List Span) :
    Option Param × List String :=
  match textNodes children with
  | [] => (none, [])
  | param_name :: rest =>
    if param_name = "none" then (none, [])
    else
      let type_info := String.join rest
      let is_optional := strContains type_info "optional"
      let guessed : Option String :=
        if strContains type_info "[]string" then some "list[str]"
        else if strContains type_info "string" then some "str"
        else if strContains type_info "integer" || strContains type_info "int," then some "int"
        else if strContains type_info "boolean" then some "bool"
        else if strContains type_info "dict" || strContains type_info "key/value" then some "dict"
        else if strContains type_info "array" then some "list"
        else none
      match guessed with
      | some param_type =>
          (some { param_type := param_type, param_name := param_name,
                  optional := is_optional, summary := strStrip type_info }, [])
      | none =>
          (some { param_type := "Any", param_name := param_name,
                  optional := is_optional, summary := strStrip type_info },
           [couldNotFigureOut type_info parent_content])

/-- Append the outcome of `_handle_param_children` to the machine: the python
method mutates `self.params` in place and prints the diagnostics. -/
def applyParamResult (sm : ExtractorStateMachine) (r : Option Param × List String) :
    ExtractorStateMachine :=
  { sm with params := sm.params ++ r.1.toList, diags := sm.diags ++ r.2 }

/-- `_handle_param`: a childless inline token raises `RuntimeError`; the
literal `**none**` content clears the parameter list; otherwise the children
are handed to `_handle_param_children`. -/
def handleParam (sm : ExtractorStateMachine) (t : Token) :
    Except PyError ExtractorStateMachine :=
  if t.children = [] then .error (.runtimeError "Unexpected case")
  else if t.content = "**none**" then .ok { sm with params := [] }
  else .ok (applyParamResult sm (_handle_param_children t.content t.children))

/-- Python `f"{m}"` on the `Optional[str]` method name. -/
def pyStr : Option String → String
  | none => "None"
  | some s => s

/-- The six stub lines appended by `_finish_method` for the current method. -/
def stubLines (sm : ExtractorStateMachine) : List String :=
  let args :=
    if sm.params ≠ [] then
      "*, " ++ String.intercalate ", " (sm.params.map Param.to_python)
    else ""
  let method := pyStr sm.method
  let indent := sm.indent
  [ "",
    indent ++ "def " ++ method ++ "(self, " ++ args ++ "): ...",
    indent ++ "\"\"\"" ++ sm.url ++ "\"\"\"",
    "",
    indent ++ "async def " ++ method ++ "_async(self, " ++ args ++ "): ...",
    indent ++ "\"\"\"" ++ sm.url ++ "\"\"\"" ]

/-- Render the accumulated parameters with `Param.to_jsonrpc`, propagating
the first `KeyError`. -/
def paramsToJson : List Param → Except PyError (List Json)
  | [] => .ok []
  | p :: ps =>
    match p.to_jsonrpc with
    | .error e => .error e
    | .ok j =>
      match paramsToJson ps with
      | .error e => .error e
      | .ok js => .ok (j :: js)

/-- The result schema chosen by `_finish_method`: a truthy single result
description wins (`if self.result: ... elif self.on_success: ...`); the
success/failure pair is only consulted when the single form is empty; with
neither, the placeholder empty schema stays. -/
def resultSchema (sm : ExtractorStateMachine) : Json :=
  if sm.result ≠ "" then _guess_return_schema sm.result
  else if sm.on_success ≠ "" then
    _combine_schemas (_guess_return_schema sm.on_success)
      (_guess_return_schema sm.on_failure)
  else .obj []

/-- The `rpc_method` dict built by `_finish_method`, in python insertion
order; `summary` is appended only for a truthy purpose. -/
def methodRecord (orig : String) (jparams : List Json) (schema : Json)
    (url purpose : String) : Json :=
  let base : List (String × Json) :=
    [("name", .str orig),
     ("params", .arr jparams),
     ("result", .obj [("name", .str "retval"), ("schema", schema)]),
     ("externalDocs", .obj [("url", .str url)])]
  if purpose ≠ "" then .obj (base ++ [("summary", .str purpose)])
  else .obj base

/-- `_finish_method`: append the stub lines, build the OpenRPC method record
(reading `orig_method` raises `AttributeError` when it was never assigned,
and a parameter whose type has no `_SCHEMAS` entry raises `KeyError`), pick
the result schema — the single result description wins over the
success/failure pair — append the record, and reset the transient
accumulators. -/
def finishMethod (sm : ExtractorStateMachine) : Except PyError ExtractorStateMachine :=
  let lines := sm.lines ++ stubLines sm
  match sm.orig_method with
  | none => .error (.attributeError "orig_method")
  | some orig =>
    match paramsToJson sm.params with
    | .error e => .error e
    | .ok jparams =>
      .ok { sm with
            lines := lines,
            methods := sm.methods ++
              [methodRecord orig jparams (resultSchema sm) sm.url sm.purpose],
            state := State.NORMAL,
            result := "", on_success := "", on_failure := "", purpose := "",
            params := [] }

/-- The documentation URL computed when heading content is seen. -/
def urlFor (stem content : String) : String :=
  "https://docs.kanboard.org/v1/api/" ++ stem ++ "/#" ++ strToLower content

/-- `handle_token`: one transition of the extractor state machine.  `caser`
stands for the external `caseswitcher.to_snake` collaborator and `stem` for
the per-file context key. -/
def handleToken (caser : String → String) (stem : String)
    (sm : ExtractorStateMachine) (t : Token) : Except PyError ExtractorStateMachine :=
  if sm.state = State.NORMAL then
    if t.type = "heading_open" then .ok { sm with state := State.IN_HEADING }
    else if t.content = "Parameters:" then .ok { sm with state := State.EXPECT_PARAM_LIST }
    else if t.content = "Parameters: none" then .ok sm
    else if strStartsWith t.content "Parameters:" = true ∧ t.children ≠ [] then
      .ok (applyParamResult sm (_handle_param_children t.content (t.children.drop 1)))
    else
      let purpose := _try_extract_prefixed t "Purpose:"
      if truthy purpose then .ok { sm with purpose := purpose.getD "" }
      else
        let result := _try_extract_prefixed t "Result:"
        if truthy result then .ok { sm with result := result.getD "" }
        else
          let on_success := _try_extract_prefixed t "Result on success:"
          if truthy on_success then .ok { sm with on_success := on_success.getD "" }
          else
            let on_failure := _try_extract_prefixed t "Result on failure:"
            if truthy on_failure then .ok { sm with on_failure := on_failure.getD "" }
            else if t.type = "bullet_list_close" then finishMethod sm
            else .ok sm
  else if sm.state = State.IN_HEADING then
    if t.type = "heading_close" then .ok { sm with state := State.NORMAL }
    else .ok { sm with
               orig_method := some t.content,
               method := some (caser t.content),
               url := urlFor stem t.content }
  else if sm.state = State.EXPECT_PARAM_LIST then
    if t.type = "bullet_list_open" then .ok { sm with state := State.IN_PARAM_LIST }
    else .ok sm
  else if sm.state = State.IN_PARAM_LIST then
    if t.type = "inline" then handleParam sm t
    else if t.type = "bullet_list_close" then .ok { sm with state := State.NORMAL }
    else .ok sm
  else if sm.state = State.IN_RESULT_FAILURE then
    if t.type = "text" then
      .ok { sm with on_failure := t.content,
                    diags := sm.diags ++ ["failure " ++ t.content],
                    state := State.NORMAL }
    else if t.type = "paragraph_close" then
      .error (.runtimeError "Didn\x27t find contents for failure")
    else .ok sm
  else if sm.state = State.IN_RESULT_SUCCESS then
    if t.type = "text" then
      .ok { sm with on_success := t.content,
                    diags := sm.diags ++ ["success " ++ t.content],
                    state := State.NORMAL }
    else if t.type = "paragraph_close" then
      .error (.runtimeError "Didn\x27t find contents for success")
    else .ok sm
  else if sm.state = State.IN_PURPOSE then
    if t.type = "text" then
      .ok { sm with purpose := t.content,
                    diags := sm.diags ++ ["purpose " ++ t.content],
                    state := State.NORMAL }
    else if t.type = "paragraph_close" then
      .error (.runtimeError "Didn\x27t find contents for purpose")
    else .ok sm
  else .ok sm

/-- `handle_file_contents`' token loop: feed a token list to the machine,
stopping at the first raised exception. -/
def handleTokens (caser : String → String) (stem : String)
    (sm : ExtractorStateMachine) : List Token → Except PyError ExtractorStateMachine
  | [] => .ok sm
  | t :: ts =>
    match handleToken caser stem sm t with
    | .error e => .error e
    | .ok sm' => handleTokens caser stem sm' ts

/-- Modelled from the spec's prefix-stripping sentence, without trimming: the
concatenation, in original order, of the child text spans of a token that do
not themselves start with the label. -/
def specCapture (t : Token) (lab : String) : String :=
  String.join ((t.children.filter
    (fun c => c.type = "text" && !(strStartsWith c.content lab))).map Span.content)

/-- Two character lists conflict when they disagree at a common position. -/
def conflicts : List Char → List Char → Bool
  | a :: as, b :: bs => if a = b then conflicts as bs else true
  | _, _ => false

/-- Conflicting strings cannot both be prefixes of the same list. -/
theorem conflicts_prefix : ∀ (p q l : List Char), conflicts p q = true →
    listIsPrefixOf p l = true → listIsPrefixOf q l = false := by
  intro p
  induction p with
  | nil => intro q l hc _; simp [conflicts] at hc
  | cons a as ih =>
    intro q l hc hp
    match q, l with
    | [], _ => simp [conflicts] at hc
    | b :: bs, [] => simp [listIsPrefixOf] at hp
    | b :: bs, c :: cs =>
      simp only [listIsPrefixOf] at hp ⊢
      simp only [conflicts] at hc
      by_cases hac : a = c
      · by_cases hab : a = b
        · subst hab; subst hac
          rw [if_pos rfl] at hc hp ⊢
          exact ih bs cs hc hp
        · subst hac
          have hbc : ¬ b = a := fun h => hab h.symm
          rw [if_neg hbc]
      · rw [if_neg hac] at hp; simp at hp

/-- A string starting with one label cannot start with a conflicting one. -/
theorem strStartsWith_conflict {s p q : String} (hc : conflicts p.data q.data = true)
    (hp : strStartsWith s p = true) : strStartsWith s q = false :=
  conflicts_prefix p.data q.data s.data hc hp

/-- `_try_extract_prefixed` is `None` when the content lacks the label. -/
theorem tryExtract_none (t : Token) (pre : String)
    (h : strStartsWith t.content pre = false) :
    _try_extract_prefixed t pre = none := by
  unfold _try_extract_prefixed
  rw [h]
  simp

/-- `_try_extract_prefixed` on a labeled token with children returns exactly
the spec's (untrimmed) concatenation of non-label child text spans. -/
theorem tryExtract_some (t : Token) (pre : String) (hch : t.children ≠ [])
    (h : strStartsWith t.content pre = true) :
    _try_extract_prefixed t pre = some (specCapture t pre) := by
  unfold _try_extract_prefixed specCapture
  rw [if_neg hch, if_pos h]

/-- `paramsToJson` can only fail with the `KeyError` of a schema lookup. -/
theorem paramsToJson_error : ∀ (ps : List Param) (e : PyError),
    paramsToJson ps = .error e → ∃ k, e = .keyError k := by
  intro ps
  induction ps with
  | nil => intro e h; simp [paramsToJson] at h
  | cons p ps ih =>
    intro e h
    unfold paramsToJson at h
    cases hj : p.to_jsonrpc with
    | error e' =>
      rw [hj] at h
      unfold Param.to_jsonrpc at hj
      cases hs : _SCHEMAS p.param_type with
      | none =>
        rw [hs] at hj
        cases h
        cases hj
        exact ⟨p.param_type, rfl⟩
      | some sch =>
        rw [hs] at hj
        by_cases ho : p.optional = true <;> simp [ho] at hj
    | ok j =>
      rw [hj] at h
      cases hr : paramsToJson ps with
      | error e' => rw [hr] at h; cases h; exact ih _ hr
      | ok js => rw [hr] at h; cases h

/-- What `_finish_method` returns when the heading was seen and every
parameter's schema resolves. -/
theorem finishMethod_eq (sm : ExtractorStateMachine) (orig : String) (jparams : List Json)
    (h1 : sm.orig_method = some orig) (h2 : paramsToJson sm.params = .ok jparams) :
    finishMethod sm = .ok { sm with
      lines := sm.lines ++ stubLines sm,
      methods := sm.methods ++
        [methodRecord orig jparams (resultSchema sm) sm.url sm.purpose],
      state := State.NORMAL,
      result := "", on_success := "", on_failure := "", purpose := "",
      params := [] } := by
  unfold finishMethod
  rw [h1, h2]

/-- The transient accumulators are clear and the naming fields untouched in
any successful result of `_finish_method`. -/
theorem finishMethod_shape (sm sm' : ExtractorStateMachine)
    (h : finishMethod sm = .ok sm') :
    sm'.purpose = "" ∧ sm'.result = "" ∧ sm'.on_success = "" ∧ sm'.on_failure = ""
    ∧ sm'.params = [] ∧ sm'.state = State.NORMAL
    ∧ sm'.method = sm.method ∧ sm'.orig_method = sm.orig_method ∧ sm'.url = sm.url := by
  unfold finishMethod at h
  cases ho : sm.orig_method with
  | none => rw [ho] at h; cases h
  | some orig =>
    rw [ho] at h
    cases hp : paramsToJson sm.params with
    | error e => rw [hp] at h; cases h
    | ok js =>
      rw [hp] at h
      cases h
      exact ⟨rfl, rfl, rfl, rfl, rfl, rfl, rfl, rfl, rfl⟩

/-- A failing `_finish_method` raises only `AttributeError` or `KeyError`. -/
theorem finishMethod_error (sm : ExtractorStateMachine) (e : PyError)
    (h : finishMethod sm = .error e) :
    e = .attributeError "orig_method" ∨ ∃ k, e = .keyError k := by
  unfold finishMethod at h
  cases ho : sm.orig_method with
  | none => rw [ho] at h; cases h; exact Or.inl rfl
  | some orig =>
    rw [ho] at h
    cases hp : paramsToJson sm.params with
    | error e' => rw [hp] at h; cases h; exact Or.inr (paramsToJson_error _ _ hp)
    | ok js => rw [hp] at h; cases h

/-- `_handle_param` leaves the state and naming fields unchanged and fails
only with the childless-token `RuntimeError`. -/
theorem handleParam_shape (sm : ExtractorStateMachine) (t : Token) :
    (∀ sm', handleParam sm t = .ok sm' →
       sm'.state = sm.state ∧ sm'.method = sm.method
       ∧ sm'.orig_method = sm.orig_method ∧ sm'.url = sm.url)
    ∧ (∀ e, handleParam sm t = .error e → e = .runtimeError "Unexpected case") := by
  constructor
  · intro sm' h
    unfold handleParam at h
    split_ifs at h <;> (cases h; exact ⟨rfl, rfl, rfl, rfl⟩)
  · intro e h
    unfold handleParam at h
    split_ifs at h <;> (cases h; rfl)

/-- The four states the finalized grammar actually uses. -/
def safeState (s : State) : Bool :=
  s = State.NORMAL || s = State.IN_HEADING
    || s = State.EXPECT_PARAM_LIST || s = State.IN_PARAM_LIST

/-- The fatal missing-field errors raised only in the legacy label-capture
states. -/
def legacyMissingError : PyError → Bool
  | .runtimeError m =>
      m = "Didn\x27t find contents for failure" || m = "Didn\x27t find contents for success"
        || m = "Didn\x27t find contents for purpose"
  | _ => false

set_option maxHeartbeats 1000000 in
/-- Outside `IN_HEADING`, a successful `handle_token` never changes the
method name, original name or documentation URL. -/
theorem handleToken_names (caser : String → String) (stem : String)
    (sm : ExtractorStateMachine) (t : Token) (sm' : ExtractorStateMachine)
    (hst : sm.state ≠ State.IN_HEADING)
    (h : handleToken caser stem sm t = .ok sm') :
    sm'.method = sm.method ∧ sm'.orig_method = sm.orig_method ∧ sm'.url = sm.url := by
  simp only [handleToken] at h
  split_ifs at h <;>
    first
      | (cases h; exact ⟨rfl, rfl, rfl⟩)
      | (exact absurd (by assumption : sm.state = State.IN_HEADING) hst)
      | (exact ((handleParam_shape sm t).1 sm' h).2)
      | (rcases finishMethod_shape sm sm' h with ⟨-, -, -, -, -, -, h1, h2, h3⟩
         exact ⟨h1, h2, h3⟩)

set_option maxHeartbeats 1000000 in
/-- A successful `handle_token` step starting in one of the four live states
ends in one of the four live states. -/
theorem handleToken_safe (caser : String → String) (stem : String)
    (sm : ExtractorStateMachine) (t : Token) (sm' : ExtractorStateMachine)
    (hs : safeState sm.state = true)
    (h : handleToken caser stem sm t = .ok sm') :
    safeState sm'.state = true := by
  simp only [handleToken] at h
  split_ifs at h <;>
    first
      | (cases h; first | exact hs | rfl)
      | (rw [((handleParam_shape sm t).1 sm' h).1]; exact hs)
      | (rw [(finishMethod_shape sm sm' h).2.2.2.2.2.1]; rfl)

set_option maxHeartbeats 1000000 in
/-- From a live state, a failing `handle_token` step never raises the legacy
missing-field errors. -/
theorem handleToken_error_not_legacy (caser : String → String) (stem : String)
    (sm : ExtractorStateMachine) (t : Token) (e : PyError)
    (hs : safeState sm.state = true)
    (h : handleToken caser stem sm t = .error e) :
    legacyMissingError e = false := by
  simp only [handleToken] at h
  split_ifs at h <;>
    first
      | (rw [show sm.state = State.IN_RESULT_FAILURE from by assumption] at hs
         exact absurd hs (by decide))
      | (rw [show sm.state = State.IN_RESULT_SUCCESS from by assumption] at hs
         exact absurd hs (by decide))
      | (rw [show sm.state = State.IN_PURPOSE from by assumption] at hs
         exact absurd hs (by decide))
      | (rw [(handleParam_shape sm t).2 e h]; rfl)
      | (rcases finishMethod_error sm e h with rfl | ⟨k, rfl⟩ <;> rfl)

/-- Processing any token list from a live state keeps the machine in the
four live states and never surfaces a legacy missing-field error. -/
theorem handleTokens_safe_aux (caser : String → String) (stem : String) :
    ∀ (ts : List Token) (sm : ExtractorStateMachine), safeState sm.state = true →
      (∀ sm', handleTokens caser stem sm ts = .ok sm' → safeState sm'.state = true)
      ∧ (∀ e, handleTokens caser stem sm ts = .error e → legacyMissingError e = false) := by
  intro ts
  induction ts with
  | nil =>
    intro sm hs
    refine ⟨fun sm' h => ?_, fun e h => ?_⟩
    · cases h; exact hs
    · cases h
  | cons t ts ih =>
    intro sm hs
    constructor
    · intro sm' h
      unfold handleTokens at h
      cases hstep : handleToken caser stem sm t with
      | error e => rw [hstep] at h; cases h
      | ok sm1 =>
        rw [hstep] at h
        exact (ih sm1 (handleToken_safe caser stem sm t sm1 hs hstep)).1 sm' h
    · intro e h
      unfold handleTokens at h
      cases hstep : handleToken caser stem sm t with
      | error e' =>
        rw [hstep] at h
        cases h
        exact handleToken_error_not_legacy caser stem sm t _ hs hstep
      | ok sm1 =>
        rw [hstep] at h
        exact (ih sm1 (handleToken_safe caser stem sm t sm1 hs hstep)).2 e h

/-- In `NORMAL`, a structural `bullet_list_close` token triggers
`_finish_method`. -/
theorem handleToken_bullet_close (caser : String → String) (stem : String)
    (sm : ExtractorStateMachine) (hstate : sm.state = State.NORMAL) :
    handleToken caser stem sm ⟨"bullet_list_close", "", []⟩ = finishMethod sm := by
  simp [handleToken, hstate, _try_extract_prefixed, truthy]

/-- C1: an unrecognized parameter type description is non-fatal at
accumulation time — a stdout diagnostic naming the offending text is printed
and the parameter is recorded with the fallback type `"Any"` — but finalizing
the enclosing method then raises `KeyError("Any")` inside
`Param.to_jsonrpc`, because the `"Any"` entry of `_SCHEMAS` is commented
out: no method record with an unknown-type marker is ever emitted, contrary
to the claim. -/
theorem unknown_param_type_finalize_raises_keyError :
    (handleTokens id "application_procedures" initMachine
      [⟨"heading_open", "", []⟩,
       ⟨"inline", "CreateTask", [⟨"text", "CreateTask"⟩]⟩,
       ⟨"heading_close", "", []⟩,
       ⟨"inline", "Parameters:", [⟨"text", "Parameters:"⟩]⟩,
       ⟨"bullet_list_open", "", []⟩,
       ⟨"inline", "myparam - mysterytype",
         [⟨"text", "myparam"⟩, ⟨"text", " - mysterytype"⟩]⟩,
       ⟨"bullet_list_close", "", []⟩]).toOption.map
        (fun m => (m.params, m.diags, m.state)) =
      some ([{ param_type := "Any", param_name := "myparam", optional := false,
               summary := "- mysterytype" }],
            [couldNotFigureOut " - mysterytype" "myparam - mysterytype"],
            State.NORMAL)
  ∧ handleTokens id "application_procedures" initMachine
      [⟨"heading_open", "", []⟩,
       ⟨"inline", "CreateTask", [⟨"text", "CreateTask"⟩]⟩,
       ⟨"heading_close", "", []⟩,
       ⟨"inline", "Parameters:", [⟨"text", "Parameters:"⟩]⟩,
       ⟨"bullet_list_open", "", []⟩,
       ⟨"inline", "myparam - mysterytype",
         [⟨"text", "myparam"⟩, ⟨"text", " - mysterytype"⟩]⟩,
       ⟨"bullet_list_close", "", []⟩,
       ⟨"bullet_list_close", "", []⟩]
      = .error (.keyError "Any")
  ∧ _SCHEMAS "Any" = none :=
  ⟨rfl, rfl, rfl⟩

/-- C2 counterexample: a type description consisting of exactly the keyword
`"list of strings"` is claimed to map to the list-of-strings type
(`"list[str]"`), but the heuristic's list-of-strings branch matches the
literal `"[]string"`, so the description falls into the `"string"` branch
and yields `"str"`. -/
theorem list_of_strings_description_maps_to_str :
    (_handle_param_children "x" [⟨"text", "p"⟩, ⟨"text", "list of strings"⟩]).1.map
        Param.param_type = some "str"
  ∧ some "str" ≠ some "list[str]" := by
  exact ⟨rfl, by decide⟩

/-- C2 amended: the list-of-strings marker is the literal `"[]string"`, not
the phrase `"list of strings"` (which lands in the `"string"` branch).  Each
of the keywords `"[]string"`, `"string"`, `"integer"`, `"boolean"`,
`"dict"`, `"array"` alone maps to its documented type with no diagnostic,
and the priority order is `"[]string"` > `"string"` > `"integer"` >
`"boolean"` > `"dict"` > `"array"`. -/
theorem param_type_keyword_roundtrip :
    _handle_param_children "x" [⟨"text", "p"⟩, ⟨"text", "[]string"⟩]
      = (some { param_type := "list[str]", param_name := "p", optional := false,
                summary := "[]string" }, [])
  ∧ _handle_param_children "x" [⟨"text", "p"⟩, ⟨"text", "string"⟩]
      = (some { param_type := "str", param_name := "p", optional := false,
                summary := "string" }, [])
  ∧ _handle_param_children "x" [⟨"text", "p"⟩, ⟨"text", "integer"⟩]
      = (some { param_type := "int", param_name := "p", optional := false,
                summary := "integer" }, [])
  ∧ _handle_param_children "x" [⟨"text", "p"⟩, ⟨"text", "boolean"⟩]
      = (some { param_type := "bool", param_name := "p", optional := false,
                summary := "boolean" }, [])
  ∧ _handle_param_children "x" [⟨"text", "p"⟩, ⟨"text", "dict"⟩]
      = (some { param_type := "dict", param_name := "p", optional := false,
                summary := "dict" }, [])
  ∧ _handle_param_children "x" [⟨"text", "p"⟩, ⟨"text", "array"⟩]
      = (some { param_type := "list", param_name := "p", optional := false,
                summary := "array" }, [])
  ∧ _handle_param_children "x" [⟨"text", "p"⟩, ⟨"text", "list of strings"⟩]
      = (some { param_type := "str", param_name := "p", optional := false,
                summary := "list of strings" }, [])
  ∧ (_handle_param_children "x" [⟨"text", "p"⟩, ⟨"text", "[]string string"⟩]).1.map
        Param.param_type = some "list[str]"
  ∧ (_handle_param_children "x" [⟨"text", "p"⟩, ⟨"text", "string integer"⟩]).1.map
        Param.param_type = some "str"
  ∧ (_handle_param_children "x" [⟨"text", "p"⟩, ⟨"text", "integer boolean"⟩]).1.map
        Param.param_type = some "int"
  ∧ (_handle_param_children "x" [⟨"text", "p"⟩, ⟨"text", "boolean dict"⟩]).1.map
        Param.param_type = some "bool"
  ∧ (_handle_param_children "x" [⟨"text", "p"⟩, ⟨"text", "dict array"⟩]).1.map
        Param.param_type = some "dict"
  ∧ (_handle_param_children "x" [⟨"text", "p"⟩, ⟨"text", "array"⟩]).2 = [] := by
  refine ⟨rfl, rfl, rfl, rfl, rfl, rfl, rfl, rfl, rfl, rfl, rfl, rfl, rfl⟩

/-- C7: the exact-match rules of `_guess_return_schema` — the literals
`"true"`, `"false"`, `"null"` map to their singleton-enum schemas, and any
description ending in `"_id"` maps to an integer schema titled with the
original text. -/
theorem return_schema_exact_matches :
    _guess_return_schema "true" = .obj [("enum", .arr [.bool true])]
  ∧ _guess_return_schema "false" = .obj [("enum", .arr [.bool false])]
  ∧ _guess_return_schema "null" = .obj [("enum", .arr [.null])]
  ∧ ∀ desc : String, strEndsWith desc "_id" = true →
      _guess_return_schema desc = .obj [("title", .str desc), ("type", .str "integer")] := by
  refine ⟨rfl, rfl, rfl, ?_⟩
  intro desc h
  have h1 : desc ≠ "true" := by intro he; rw [he] at h; exact absurd h (by decide)
  have h2 : desc ≠ "false" := by intro he; rw [he] at h; exact absurd h (by decide)
  have h3 : desc ≠ "null" := by intro he; rw [he] at h; exact absurd h (by decide)
  unfold _guess_return_schema
  rw [if_neg h1, if_neg h2, if_neg h3, if_pos h]

/-- C7 witness: the `"_id"` rule applied to the concrete description
`"project_id"`. -/
theorem return_schema_exact_matches_witness :
    _guess_return_schema "project_id"
      = .obj [("title", .str "project_id"), ("type", .str "integer")] :=
  return_schema_exact_matches.2.2.2 "project_id" (by decide)

/-- C10: the machine is constructed with `orig_method` unassigned, and a
structural `bullet_list_close` handled in `NORMAL` before any heading
content has assigned it makes `handle_token` fail with `AttributeError`
instead of emitting a record. -/
theorem finalize_without_heading_attribute_error :
    initMachine.orig_method = none
  ∧ ∀ (caser : String → String) (stem : String) (sm : ExtractorStateMachine),
      sm.state = State.NORMAL → sm.orig_method = none →
      handleToken caser stem sm ⟨"bullet_list_close", "", []⟩
        = .error (.attributeError "orig_method") := by
  refine ⟨rfl, ?_⟩
  intro caser stem sm hstate horig
  rw [handleToken_bullet_close caser stem sm hstate]
  unfold finishMethod
  rw [horig]

/-- C10 witness: the freshly constructed machine crashes on an immediate
`bullet_list_close`. -/
theorem finalize_without_heading_attribute_error_witness :
    handleToken id "stem" initMachine ⟨"bullet_list_close", "", []⟩
      = .error (.attributeError "orig_method") :=
  finalize_without_heading_attribute_error.2 id "stem" initMachine rfl rfl

/-- The `result` member of the built method record always pairs the fixed
name `retval` with the chosen schema, whether or not a summary is present. -/
theorem methodRecord_getKey_result (orig : String) (jparams : List Json) (schema : Json)
    (url purpose : String) :
    (methodRecord orig jparams schema url purpose).getKey "result"
      = some (.obj [("name", .str "retval"), ("schema", schema)]) := by
  unfold methodRecord
  split_ifs <;> rfl

/-- A concrete `Purpose:` token whose captured text carries surrounding
whitespace. -/
def purposeTok : Token :=
  ⟨"inline", "Purpose: x", [⟨"text", "Purpose: "⟩, ⟨"text", " x "⟩]⟩

/-- C3 counterexample: the captured purpose is not trimmed.  For a token
whose non-label child text span is `" x "`, the stored purpose is `" x "`,
while the trimmed concatenation the claim describes would be `"x"`. -/
theorem purpose_capture_not_trimmed :
    handleToken id "s" initMachine purposeTok = .ok { initMachine with purpose := " x " }
  ∧ strStrip " x " = "x"
  ∧ (" x " : String) ≠ "x" :=
  ⟨rfl, rfl, by decide⟩

set_option maxHeartbeats 1000000 in
/-- C3 (amended: no trimming): in `NORMAL`, an inline token whose content
begins with one of the four labels stores, in the matching field, exactly
the concatenation — in original order and with surrounding whitespace
preserved — of the child text spans that do not themselves start with the
label, whenever that concatenation is non-empty. -/
theorem labeled_field_capture_untrimmed (caser : String → String) (stem : String)
    (sm : ExtractorStateMachine) (t : Token)
    (hstate : sm.state = State.NORMAL) (htype : t.type = "inline")
    (hch : t.children ≠ []) :
    (strStartsWith t.content "Purpose:" = true → specCapture t "Purpose:" ≠ "" →
       handleToken caser stem sm t = .ok { sm with purpose := specCapture t "Purpose:" })
  ∧ (strStartsWith t.content "Result:" = true → specCapture t "Result:" ≠ "" →
       handleToken caser stem sm t = .ok { sm with result := specCapture t "Result:" })
  ∧ (strStartsWith t.content "Result on success:" = true →
       specCapture t "Result on success:" ≠ "" →
       handleToken caser stem sm t
         = .ok { sm with on_success := specCapture t "Result on success:" })
  ∧ (strStartsWith t.content "Result on failure:" = true →
       specCapture t "Result on failure:" ≠ "" →
       handleToken caser stem sm t
         = .ok { sm with on_failure := specCapture t "Result on failure:" }) := by
  have hho : t.type ≠ "heading_open" := by rw [htype]; decide
  refine ⟨?_, ?_, ?_, ?_⟩
  · intro hpre hval
    have hne1 : t.content ≠ "Parameters:" := by
      intro he; rw [he] at hpre; exact absurd hpre (by decide)
    have hne2 : t.content ≠ "Parameters: none" := by
      intro he; rw [he] at hpre; exact absurd hpre (by decide)
    have hnp : strStartsWith t.content "Parameters:" = false :=
      strStartsWith_conflict (by decide) hpre
    have hext : _try_extract_prefixed t "Purpose:" = some (specCapture t "Purpose:") :=
      tryExtract_some t "Purpose:" hch hpre
    simp [handleToken, hstate, hho, hne1, hne2, hnp, hext, truthy, hval]
  · intro hpre hval
    have hne1 : t.content ≠ "Parameters:" := by
      intro he; rw [he] at hpre; exact absurd hpre (by decide)
    have hne2 : t.content ≠ "Parameters: none" := by
      intro he; rw [he] at hpre; exact absurd hpre (by decide)
    have hnp : strStartsWith t.content "Parameters:" = false :=
      strStartsWith_conflict (by decide) hpre
    have hP : strStartsWith t.content "Purpose:" = false :=
      strStartsWith_conflict (by decide) hpre
    have hextP : _try_extract_prefixed t "Purpose:" = none := tryExtract_none t "Purpose:" hP
    have hext : _try_extract_prefixed t "Result:" = some (specCapture t "Result:") :=
      tryExtract_some t "Result:" hch hpre
    simp [handleToken, hstate, hho, hne1, hne2, hnp, hextP, hext, truthy, hval]
  · intro hpre hval
    have hne1 : t.content ≠ "Parameters:" := by
      intro he; rw [he] at hpre; exact absurd hpre (by decide)
    have hne2 : t.content ≠ "Parameters: none" := by
      intro he; rw [he] at hpre; exact absurd hpre (by decide)
    have hnp : strStartsWith t.content "Parameters:" = false :=
      strStartsWith_conflict (by decide) hpre
    have hP : strStartsWith t.content "Purpose:" = false :=
      strStartsWith_conflict (by decide) hpre
    have hR : strStartsWith t.content "Result:" = false :=
      strStartsWith_conflict (by decide) hpre
    have hextP : _try_extract_prefixed t "Purpose:" = none := tryExtract_none t "Purpose:" hP
    have hextR : _try_extract_prefixed t "Result:" = none := tryExtract_none t "Result:" hR
    have hext : _try_extract_prefixed t "Result on success:"
        = some (specCapture t "Result on success:") :=
      tryExtract_some t "Result on success:" hch hpre
    simp [handleToken, hstate, hho, hne1, hne2, hnp, hextP, hextR, hext, truthy, hval]
  · intro hpre hval
    have hne1 : t.content ≠ "Parameters:" := by
      intro he; rw [he] at hpre; exact absurd hpre (by decide)
    have hne2 : t.content ≠ "Parameters: none" := by
      intro he; rw [he] at hpre; exact absurd hpre (by decide)
    have hnp : strStartsWith t.content "Parameters:" = false :=
      strStartsWith_conflict (by decide) hpre
    have hP : strStartsWith t.content "Purpose:" = false :=
      strStartsWith_conflict (by decide) hpre
    have hR : strStartsWith t.content "Result:" = false :=
      strStartsWith_conflict (by decide) hpre
    have hS : strStartsWith t.content "Result on success:" = false :=
      strStartsWith_conflict (by decide) hpre
    have hextP : _try_extract_prefixed t "Purpose:" = none := tryExtract_none t "Purpose:" hP
    have hextR : _try_extract_prefixed t "Result:" = none := tryExtract_none t "Result:" hR
    have hextS : _try_extract_prefixed t "Result on success:" = none :=
      tryExtract_none t "Result on success:" hS
    have hext : _try_extract_prefixed t "Result on failure:"
        = some (specCapture t "Result on failure:") :=
      tryExtract_some t "Result on failure:" hch hpre
    simp [handleToken, hstate, hho, hne1, hne2, hnp, hextP, hextR, hextS, hext, truthy, hval]

/-- C3 witness: a concrete `Purpose:` token on the fresh machine. -/
theorem labeled_field_capture_untrimmed_witness :
    handleToken id "s" initMachine purposeTok
      = .ok { initMachine with purpose := specCapture purposeTok "Purpose:" } :=
  (labeled_field_capture_untrimmed id "s" initMachine purposeTok
      rfl rfl (by decide)).1 (by decide) (by decide)

/-- C4: a parameter is optional exactly when `"optional"` occurs in its type
description, independently of the matched type branch; optional parameters
are declared with an `Optional[...]` annotation and `= None` default and
their record omits `required`, while required parameters are declared bare
and their record carries `required = true`. -/
theorem optional_flag_spec :
    (∀ (parent : String) (children : List Span) (p : Param),
       (_handle_param_children parent children).1 = some p →
       p.optional = strContains (String.join ((textNodes children).drop 1)) "optional")
  ∧ (∀ p : Param, p.optional = true →
       p.to_python = p.param_name ++ ": " ++ ("Optional[" ++ p.param_type ++ "]") ++ " = None")
  ∧ (∀ (p : Param) (sch j : Json), p.optional = true → _SCHEMAS p.param_type = some sch →
       p.to_jsonrpc = .ok j →
       j = .obj [("name", .str p.param_name), ("summary", .str p.summary), ("schema", sch)]
       ∧ j.hasKey "required" = false)
  ∧ (∀ p : Param, p.optional = false → p.to_python = p.param_name ++ ": " ++ p.param_type)
  ∧ (∀ (p : Param) (sch j : Json), p.optional = false → _SCHEMAS p.param_type = some sch →
       p.to_jsonrpc = .ok j →
       j = .obj [("name", .str p.param_name), ("summary", .str p.summary), ("schema", sch),
                 ("required", .bool true)]
       ∧ j.getKey "required" = some (.bool true)) := by
  refine ⟨?_, ?_, ?_, ?_, ?_⟩
  · intro parent children p h
    cases htn : textNodes children with
    | nil => simp only [_handle_param_children, htn] at h; cases h
    | cons nm rest =>
      simp only [_handle_param_children, htn] at h
      by_cases hnm : nm = "none"
      · simp [hnm] at h
      · simp only [if_neg hnm] at h
        split at h <;>
          (simp only [Option.some.injEq] at h; subst h; rfl)
  · intro p hopt
    simp [Param.to_python, hopt]
  · intro p sch j hopt hsch hj
    simp only [Param.to_jsonrpc, hsch, hopt, if_true] at hj
    cases hj
    exact ⟨rfl, rfl⟩
  · intro p hopt
    simp [Param.to_python, hopt, String.append_empty]
  · intro p sch j hopt hsch hj
    simp only [Param.to_jsonrpc, hsch, hopt, if_false, Bool.false_eq_true] at hj
    cases hj
    exact ⟨rfl, rfl⟩

/-- The parameter derived from the description `"string, optional"`. -/
def optParam : Param :=
  ⟨"str", "p", true, "string, optional"⟩

/-- C4 witness: the scenario `"string, optional"`. -/
theorem optional_flag_spec_witness :
    optParam.optional
      = strContains (String.join ((textNodes
          [⟨"text", "p"⟩, ⟨"text", "string, optional"⟩]).drop 1)) "optional"
  ∧ Param.to_python optParam
      = "p" ++ ": " ++ ("Optional[" ++ "str" ++ "]") ++ " = None" :=
  ⟨optional_flag_spec.1 "x" [⟨"text", "p"⟩, ⟨"text", "string, optional"⟩] optParam rfl,
   optional_flag_spec.2.1 optParam rfl⟩

/-- C5: when both a non-empty single result description and a non-empty
success/failure pair are accumulated, `_finish_method` deterministically
derives the emitted result schema from the single result description alone,
ignoring the pair. -/
theorem single_result_precedence (sm : ExtractorStateMachine) (orig : String)
    (jparams : List Json) (h1 : sm.orig_method = some orig) (hr : sm.result ≠ "")
    (hs : sm.on_success ≠ "") (hf : sm.on_failure ≠ "")
    (h2 : paramsToJson sm.params = .ok jparams) :
    finishMethod sm = .ok { sm with
        lines := sm.lines ++ stubLines sm,
        methods := sm.methods ++
          [methodRecord orig jparams (_guess_return_schema sm.result) sm.url sm.purpose],
        state := State.NORMAL,
        result := "", on_success := "", on_failure := "", purpose := "", params := [] }
    ∧ (methodRecord orig jparams (_guess_return_schema sm.result) sm.url
         sm.purpose).getKey "result"
        = some (.obj [("name", .str "retval"), ("schema", _guess_return_schema sm.result)]) := by
  have hsch : resultSchema sm = _guess_return_schema sm.result := by
    unfold resultSchema; rw [if_pos hr]
  exact ⟨by rw [finishMethod_eq sm orig jparams h1 h2, hsch],
         methodRecord_getKey_result _ _ _ _ _⟩

/-- A machine carrying both a single result and a success/failure pair. -/
def c5In : ExtractorStateMachine :=
  { initMachine with
      orig_method := some "M"
      result := "res_id"
      on_success := "task_id"
      on_failure := "false" }

/-- C5 witness: a machine carrying both `result = "res_id"` and a
success/failure pair emits the schema of `"res_id"` alone. -/
theorem single_result_precedence_witness :
    (methodRecord "M" [] (_guess_return_schema "res_id") "" "").getKey "result"
      = some (.obj [("name", .str "retval"), ("schema", _guess_return_schema "res_id")]) :=
  (single_result_precedence c5In "M" [] rfl (by decide) (by decide) (by decide) rfl).2

/-- C6: with no single result description, a method with a success
description gets a `oneOf` of the two independently inferred schemas tagged
`"on success"` / `"on failure"`; concretely, success `"task_id"` and failure
`"false"` combine into a one-of between the titled integer schema and the
singleton-`false` enum with those discriminators. -/
theorem success_failure_pair_combined :
    (∀ (sm : ExtractorStateMachine) (orig : String) (jparams : List Json),
       sm.orig_method = some orig → sm.result = "" → sm.on_success ≠ "" →
       paramsToJson sm.params = .ok jparams →
       finishMethod sm = .ok { sm with
           lines := sm.lines ++ stubLines sm,
           methods := sm.methods ++
             [methodRecord orig jparams
               (_combine_schemas (_guess_return_schema sm.on_success)
                 (_guess_return_schema sm.on_failure)) sm.url sm.purpose],
           state := State.NORMAL,
           result := "", on_success := "", on_failure := "", purpose := "", params := [] }
       ∧ (methodRecord orig jparams
            (_combine_schemas (_guess_return_schema sm.on_success)
              (_guess_return_schema sm.on_failure)) sm.url sm.purpose).getKey "result"
           = some (.obj [("name", .str "retval"),
               ("schema", _combine_schemas (_guess_return_schema sm.on_success)
                   (_guess_return_schema sm.on_failure))]))
  ∧ _combine_schemas (_guess_return_schema "task_id") (_guess_return_schema "false")
      = .obj [("oneOf", .arr
          [.obj [("title", .str "task_id"), ("type", .str "integer"),
                 ("description", .str "on success")],
           .obj [("enum", .arr [.bool false]), ("description", .str "on failure")]])] := by
  constructor
  · intro sm orig jparams h1 hr hs h2
    have hsch : resultSchema sm = _combine_schemas (_guess_return_schema sm.on_success)
        (_guess_return_schema sm.on_failure) := by
      unfold resultSchema
      rw [if_neg (by simp [hr]), if_pos hs]
    exact ⟨by rw [finishMethod_eq sm orig jparams h1 h2, hsch],
           methodRecord_getKey_result _ _ _ _ _⟩
  · rfl

/-- A machine carrying only the success/failure pair of the spec scenario. -/
def c6In : ExtractorStateMachine :=
  { initMachine with
      orig_method := some "M"
      on_success := "task_id"
      on_failure := "false" }

/-- C6 witness: the `"task_id"` / `"false"` scenario run through
`_finish_method`. -/
theorem success_failure_pair_combined_witness :
    (methodRecord "M" []
        (_combine_schemas (_guess_return_schema "task_id") (_guess_return_schema "false"))
        "" "").getKey "result"
      = some (.obj [("name", .str "retval"),
          ("schema", _combine_schemas (_guess_return_schema "task_id")
              (_guess_return_schema "false"))]) :=
  (success_failure_pair_combined.1 c6In "M" [] rfl rfl (by decide) rfl).2

/-- Machine used to exercise `_finish_method` end to end. -/
def c8In : ExtractorStateMachine :=
  { initMachine with
      orig_method := some "M"
      method := some "m"
      url := "u"
      result := "true"
      on_success := "s"
      on_failure := "f"
      purpose := "p" }

/-- The machine `_finish_method` produces from `c8In`. -/
def c8Out : ExtractorStateMachine :=
  { c8In with
      lines := c8In.lines ++ stubLines c8In
      methods := [methodRecord "M" [] (_guess_return_schema "true") "u" "p"]
      state := State.NORMAL
      result := ""
      on_success := ""
      on_failure := ""
      purpose := ""
      params := [] }

/-- C8: after a successful finalize the transient accumulators (purpose,
result, success, failure, parameters) are empty while the method name,
original name and documentation URL are untouched; and outside `IN_HEADING`
no token ever changes those three naming fields. -/
theorem finalize_clears_and_preserves :
    (∀ sm sm' : ExtractorStateMachine, finishMethod sm = .ok sm' →
       sm'.purpose = "" ∧ sm'.result = "" ∧ sm'.on_success = "" ∧ sm'.on_failure = ""
         ∧ sm'.params = [] ∧ sm'.method = sm.method ∧ sm'.orig_method = sm.orig_method
         ∧ sm'.url = sm.url)
  ∧ (∀ (caser : String → String) (stem : String) (sm : ExtractorStateMachine)
       (t : Token) (sm' : ExtractorStateMachine),
       sm.state ≠ State.IN_HEADING → handleToken caser stem sm t = .ok sm' →
       sm'.method = sm.method ∧ sm'.orig_method = sm.orig_method ∧ sm'.url = sm.url) := by
  constructor
  · intro sm sm' h
    obtain ⟨h1, h2, h3, h4, h5, -, h6, h7, h8⟩ := finishMethod_shape sm sm' h
    exact ⟨h1, h2, h3, h4, h5, h6, h7, h8⟩
  · exact handleToken_names

/-- C8 witness: finalizing `c8In` clears the accumulators and keeps the
naming fields. -/
theorem finalize_clears_and_preserves_witness :
    c8Out.purpose = "" ∧ c8Out.result = "" ∧ c8Out.on_success = "" ∧ c8Out.on_failure = ""
      ∧ c8Out.params = [] ∧ c8Out.method = c8In.method ∧ c8Out.orig_method = c8In.orig_method
      ∧ c8Out.url = c8In.url :=
  finalize_clears_and_preserves.1 c8In c8Out rfl

/-- C9: any token sequence processed from the freshly constructed machine
keeps the state within `NORMAL`/`IN_HEADING`/`EXPECT_PARAM_LIST`/
`IN_PARAM_LIST`, so the legacy states and their fatal missing-field
`RuntimeError`s are unreachable. -/
theorem reachable_states_safe :
    (∀ (caser : String → String) (stem : String) (ts : List Token)
       (sm' : ExtractorStateMachine),
       handleTokens caser stem initMachine ts = .ok sm' →
       sm'.state = State.NORMAL ∨ sm'.state = State.IN_HEADING
         ∨ sm'.state = State.EXPECT_PARAM_LIST ∨ sm'.state = State.IN_PARAM_LIST)
  ∧ (∀ (caser : String → String) (stem : String) (ts : List Token) (e : PyError),
       handleTokens caser stem initMachine ts = .error e →
       e ≠ .runtimeError "Didn\x27t find contents for failure"
       ∧ e ≠ .runtimeError "Didn\x27t find contents for success"
       ∧ e ≠ .runtimeError "Didn\x27t find contents for purpose") := by
  constructor
  · intro caser stem ts sm' h
    have hs := (handleTokens_safe_aux caser stem ts initMachine rfl).1 sm' h
    simpa [safeState, or_assoc] using hs
  · intro caser stem ts e h
    have he := (handleTokens_safe_aux caser stem ts initMachine rfl).2 e h
    refine ⟨?_, ?_, ?_⟩ <;> (intro heq; subst heq; exact absurd he (by decide))

/-- C9 witness: one `heading_open` token from the fresh machine lands in
`IN_HEADING`, one of the four live states. -/
theorem reachable_states_safe_witness :
    State.IN_HEADING = State.NORMAL ∨ State.IN_HEADING = State.IN_HEADING
      ∨ State.IN_HEADING = State.EXPECT_PARAM_LIST
      ∨ State.IN_HEADING = State.IN_PARAM_LIST :=
  reachable_states_safe.1 id "stem" [⟨"heading_open", "", []⟩]
    { initMachine with state := State.IN_HEADING } rfl

end Parse
